import Mathlib

/-!
Verification of the Acoustid index session layer (`src/unnamed/part_000`,
`Session::*`).  The session methods are embedded directly from the source;
the components they call (`IndexWriter`, `IndexReader`, `TopHitsCollector`)
are not part of the provided sources and are modelled from the spec where a
claim depends on them.  Each operation is a pure state transformer
`Session → Option Error × Session` (the error component models a thrown
exception; the returned session is the state left behind by the call).
-/

namespace Acoustid

/-- Error taxonomy surfaced at the API (spec §6/§7 and `errors.h` usage in
`session.cpp`). -/
inductive Error where
  | alreadyInTransaction
  | notInTransaction
  | ioError
  | invalidAttribute
  | corruptSegment
  | corruptManifest
deriving DecidableEq, Repr

/-- A buffered document: `(doc_id, hashes)` as passed to `Session::insert`. -/
structure Doc where
  docId : Nat
  hashes : List Nat
deriving DecidableEq, Repr

/-- The published index state visible to readers: the manifest's attribute
map, the manifest generation, and the list of committed segments (each a
batch of documents, in commit order). -/
structure IndexState where
  attributes : List (String × String)
  generation : Nat
  segments : List (List Doc)
deriving DecidableEq, Repr

/-- Modelled from the spec: the `IndexWriter` created by `Session::begin`
(§4.6).  It holds the in-memory buffer of added documents and the pending
manifest (here: its attribute map), which starts as a copy of the published
manifest and receives `setAttribute` updates until commit. -/
structure Writer where
  buffer : List Doc
  pendingAttrs : List (String × String)
deriving DecidableEq, Repr

/-- The session state (`Session` members in `session.h`): the index, the
optional writer (`m_indexWriter`, null ↔ no active transaction), and the
session-local attributes `m_maxResults` and `m_topScorePercent`. -/
structure Session where
  index : IndexState
  writer : Option Writer
  maxResults : Int
  topScorePercent : Int
deriving DecidableEq, Repr

/-- Decimal digit value of a character, if it is a digit. -/
def digitVal (c : Char) : Option Nat :=
  if '0' ≤ c ∧ c ≤ '9' then some (c.toNat - '0'.toNat) else none

/-- Parse a non-empty all-digit character list as a natural number. -/
def parseNat : List Char → Option Nat
  | [] => none
  | cs =>
    cs.foldl
      (fun acc c =>
        match acc, digitVal c with
        | some n, some d => some (n * 10 + d)
        | _, _ => none)
      (some 0)

/-- Model of `QString::toInt` as used in `Session::setAttribute`: an
optional sign followed by decimal digits; any string that is not entirely a
signed decimal number converts to 0. -/
def toIntQ (s : String) : Int :=
  match s.data with
  | '+' :: rest => match parseNat rest with | some n => (n : Int) | none => 0
  | '-' :: rest => match parseNat rest with | some n => -(n : Int) | none => 0
  | cs => match parseNat cs with | some n => (n : Int) | none => 0

/-- Attribute-map lookup; a missing attribute reads as the empty string. -/
def lookupAttr (attrs : List (String × String)) (name : String) : String :=
  match attrs.lookup name with
  | some v => v
  | none => ""

/-- Set (insert or overwrite) an entry of an attribute map. -/
def setAttr (attrs : List (String × String)) (name value : String) :
    List (String × String) :=
  (name, value) :: attrs.filter (fun kv => kv.1 ≠ name)

/-- `Session::begin` (session.cpp:13-19): fails with `AlreadyInTransaction`
when a writer exists, otherwise creates a fresh writer with an empty
buffer whose pending manifest copies the published one. -/
def Session.begin (s : Session) : Option Error × Session :=
  match s.writer with
  | some _ => (some Error.alreadyInTransaction, s)
  | none =>
    (none, { s with writer := some { buffer := [], pendingAttrs := s.index.attributes } })

/-- Modelled from the spec: `IndexWriter::commit` (§4.6 steps 1-5, §7) —
serialises the buffer as a new segment, installs the pending attribute map,
and bumps the generation; any I/O failure (the `ioOk = false` case) raises
`IOError` before the published manifest changes. -/
def IndexWriter.commitW (ioOk : Bool) (w : Writer) (idx : IndexState) :
    Except Error IndexState :=
  if ioOk then
    Except.ok
      { attributes := w.pendingAttrs
        generation := idx.generation + 1
        segments := idx.segments ++ [w.buffer] }
  else
    Except.error Error.ioError

/-- `Session::commit` (session.cpp:21-28): fails with `NotInTransaction`
when no writer exists; otherwise calls the writer's commit and clears the
writer only after that call returns — an exception from the writer's commit
propagates and leaves every session member unchanged. -/
def Session.commit (ioOk : Bool) (s : Session) : Option Error × Session :=
  match s.writer with
  | none => (some Error.notInTransaction, s)
  | some w =>
    match IndexWriter.commitW ioOk w s.index with
    | Except.error e => (some e, s)
    | Except.ok idx => (none, { s with index := idx, writer := none })

/-- `Session::rollback` (session.cpp:30-36): fails with `NotInTransaction`
when no writer exists; otherwise discards the writer (and with it the
in-memory buffer) without touching the published index. -/
def Session.rollback (s : Session) : Option Error × Session :=
  match s.writer with
  | none => (some Error.notInTransaction, s)
  | some _ => (none, { s with writer := none })

/-- Merge a list of segments into one, keeping document order. -/
def mergeSegments (segs : List (List Doc)) : List Doc := segs.flatten

/-- `Session::optimize` (session.cpp:38-44): fails with `NotInTransaction`
when no writer exists; otherwise runs the writer's optimize, modelled from
the spec (§4.6) as merging all live segments into one and committing the
resulting manifest. -/
def Session.optimize (s : Session) : Option Error × Session :=
  match s.writer with
  | none => (some Error.notInTransaction, s)
  | some _ =>
    (none,
      { s with
          index :=
            { s.index with
                segments := [mergeSegments s.index.segments]
                generation := s.index.generation + 1 } })

/-- `Session::cleanup` (session.cpp:46-52): fails with `NotInTransaction`
when no writer exists; otherwise runs the writer's cleanup, modelled from
the spec (§4.6) as unlinking unreferenced files — an effect outside the
modelled state, so the manifest, segments and buffer are unchanged. -/
def Session.cleanup (s : Session) : Option Error × Session :=
  match s.writer with
  | none => (some Error.notInTransaction, s)
  | some _ => (none, s)

/-- `Session::getAttribute` (session.cpp:54-66): the two session-local
names read the session fields; any other name reads the writer's pending
manifest when a writer exists and the published manifest otherwise. -/
def Session.getAttribute (s : Session) (name : String) : String :=
  if name = "max_results" then toString s.maxResults
  else if name = "top_score_percent" then toString s.topScorePercent
  else
    match s.writer with
    | none => lookupAttr s.index.attributes name
    | some w => lookupAttr w.pendingAttrs name

/-- `Session::setAttribute` (session.cpp:68-82): the two session-local
names convert the value with `toInt` and store it in the session field,
with no range check and no transaction check; any other name requires a
writer (else `NotInTransaction`) and updates the writer's pending
manifest. -/
def Session.setAttribute (s : Session) (name value : String) :
    Option Error × Session :=
  if name = "max_results" then (none, { s with maxResults := toIntQ value })
  else if name = "top_score_percent" then
    (none, { s with topScorePercent := toIntQ value })
  else
    match s.writer with
    | none => (some Error.notInTransaction, s)
    | some w =>
      (none,
        { s with writer := some { w with pendingAttrs := setAttr w.pendingAttrs name value } })

/-- `Session::insert` (session.cpp:84-90): fails with `NotInTransaction`
when no writer exists; otherwise appends the document to the writer's
in-memory buffer. -/
def Session.insert (s : Session) (id : Nat) (hashes : List Nat) :
    Option Error × Session :=
  match s.writer with
  | none => (some Error.notInTransaction, s)
  | some w =>
    (none,
      { s with writer := some { w with buffer := w.buffer ++ [{ docId := id, hashes := hashes }] } })

/-- Best collected score: `max(score)` over the map, 0 when empty (§4.8). -/
def bestScore (m : List (Nat × Nat)) : Nat :=
  m.foldr (fun x acc => max x.2 acc) 0

/-- Relative cutoff `threshold = ceil(best * p / 100)` (§4.8), as natural
division: `(best * p + 99) / 100`. -/
def cutoff (p best : Nat) : Nat := (best * p + 99) / 100

/-- Result order of the collector: `a` precedes `b` when `a`'s score is
larger, or the scores tie and `a`'s doc id is at most `b`'s (score
descending, ties broken by doc id ascending). -/
def ResultRel (a b : Nat × Nat) : Prop := b.2 < a.2 ∨ (a.2 = b.2 ∧ a.1 ≤ b.1)

instance : DecidableRel ResultRel := fun a b => by
  unfold ResultRel; exact inferInstance

instance : IsTotal (Nat × Nat) ResultRel :=
  ⟨by intro a b; unfold ResultRel; omega⟩

instance : IsTrans (Nat × Nat) ResultRel :=
  ⟨by intro a b c; unfold ResultRel; omega⟩

/-- Modelled from the spec: `TopHitsCollector::topResults` finalisation
(§4.8) — keep the doc ids whose score reaches the relative cutoff, sort by
score descending then doc id ascending (stable), truncate to `k` entries. -/
def topResults (k p : Nat) (m : List (Nat × Nat)) : List (Nat × Nat) :=
  ((m.filter (fun x => cutoff p (bestScore m) ≤ x.2)).insertionSort ResultRel).take k

/-- The committed documents, latest segment first, latest insert first
within a segment: the head occurrence of a doc id is the authoritative
one (deletion-via-overwrite, §3 invariant 1). -/
def liveDocs (idx : IndexState) : List Doc :=
  (mergeSegments idx.segments).reverse

/-- Modelled from the spec: the query evaluator plus segment readers
(§4.2, §4.7) — a live document scores one point per distinct query hash it
contains (multiplicity collapsed to per-(doc, hash) presence, §9). -/
def collectScores (idx : IndexState) (hashes : List Nat) : List (Nat × Nat) :=
  let docs := liveDocs idx
  let dedupIds := (docs.map Doc.docId).dedup
  let owned := dedupIds.filterMap fun id =>
    (docs.find? (fun d => d.docId = id)).map fun d =>
      (id, ((hashes.dedup).filter (fun h => h ∈ d.hashes)).length)
  owned.filter fun x => 0 < x.2

/-- `Session::search` (session.cpp:92-98): no transaction check; builds a
collector from the session-local `m_maxResults` and `m_topScorePercent`, a
reader over the published index `m_index`, and returns the collector's top
results.  The result triple is (thrown error, session state left behind,
returned list). -/
def Session.search (s : Session) (hashes : List Nat) :
    Option Error × Session × List (Nat × Nat) :=
  (none, s,
    topResults s.maxResults.toNat s.topScorePercent.toNat (collectScores s.index hashes))

/-! Concrete fixtures used by witnesses and counterexamples. -/

/-- A writer fixture with one buffered document and a pending attribute. -/
def w0 : Writer :=
  { buffer := [{ docId := 2, hashes := [7] }], pendingAttrs := [("foo", "baz")] }

/-- A session fixture with default attribute values (§6), one committed
segment, and no active writer. -/
def s0 : Session :=
  { index :=
      { attributes := [("foo", "bar")]
        generation := 1
        segments := [[{ docId := 1, hashes := [100, 200] }]] }
    writer := none
    maxResults := 500
    topScorePercent := 10 }

/-- The fixture session `s0` with the writer `w0` active. -/
def s1 : Session := { s0 with writer := some w0 }

/-! Helper lemmas shared between claims. -/

/-- A commit that returns without an error has cleared the writer. -/
theorem commit_ok_clears_writer (ioOk : Bool) (s t : Session)
    (h : Session.commit ioOk s = (none, t)) : t.writer = none := by
  unfold Session.commit at h
  split at h
  · simp at h
  · unfold IndexWriter.commitW at h
    split at h
    · simp at h
    · simp at h
      rw [← h]

/-- A rollback that returns without an error has cleared the writer. -/
theorem rollback_ok_clears_writer (s t : Session)
    (h : Session.rollback s = (none, t)) : t.writer = none := by
  unfold Session.rollback at h
  split at h
  · simp at h
  · simp at h
    rw [← h]

/-- Claim C1: when a transaction is active and the underlying index-writer
commit fails, the error propagates out of `commit()` and the session is
left exactly as it was — still in the transaction, with the writer and its
in-memory buffer unchanged — so a subsequent `commit()` may retry and can
succeed. -/
theorem commit_error_preserves_transaction (s : Session) (w : Writer)
    (h : s.writer = some w) :
    Session.commit false s = (some Error.ioError, s) ∧
    (Session.commit false s).2.writer = some w ∧
    (Session.commit true s).1 = none := by
  refine ⟨?_, ?_, ?_⟩ <;> simp [Session.commit, IndexWriter.commitW, h]

/-- Closed witness for C1 at the fixture session `s1` (writer `w0`). -/
theorem commit_error_preserves_transaction_witness :
    Session.commit false s1 = (some Error.ioError, s1) ∧
    (Session.commit false s1).2.writer = some w0 ∧
    (Session.commit true s1).1 = none :=
  commit_error_preserves_transaction s1 w0 rfl

/-- Claim C2: on a session with no active transaction, `commit`,
`rollback`, `optimize`, `cleanup`, `insert`, and `setAttribute` for a name
other than the two session-local ones all fail with `NotInTransaction` and
leave the session (and hence the index) untouched. -/
theorem no_transaction_rejects (s : Session) (hwr : s.writer = none)
    (ioOk : Bool) (id : Nat) (hs : List Nat) (name value : String)
    (hn1 : name ≠ "max_results") (hn2 : name ≠ "top_score_percent") :
    Session.commit ioOk s = (some Error.notInTransaction, s) ∧
    Session.rollback s = (some Error.notInTransaction, s) ∧
    Session.optimize s = (some Error.notInTransaction, s) ∧
    Session.cleanup s = (some Error.notInTransaction, s) ∧
    Session.insert s id hs = (some Error.notInTransaction, s) ∧
    Session.setAttribute s name value = (some Error.notInTransaction, s) := by
  refine ⟨?_, ?_, ?_, ?_, ?_, ?_⟩ <;>
    simp [Session.commit, Session.rollback, Session.optimize, Session.cleanup,
      Session.insert, Session.setAttribute, hwr, hn1, hn2]

/-- Closed witness for C2 at the fixture session `s0` and attribute
`foo`. -/
theorem no_transaction_rejects_witness :
    Session.commit true s0 = (some Error.notInTransaction, s0) ∧
    Session.rollback s0 = (some Error.notInTransaction, s0) ∧
    Session.optimize s0 = (some Error.notInTransaction, s0) ∧
    Session.cleanup s0 = (some Error.notInTransaction, s0) ∧
    Session.insert s0 9 [1, 2] = (some Error.notInTransaction, s0) ∧
    Session.setAttribute s0 "foo" "v" = (some Error.notInTransaction, s0) :=
  no_transaction_rejects s0 rfl true 9 [1, 2] "foo" "v" (by decide) (by decide)

/-- Claim C3: calling `begin()` while a transaction is already active fails
with `AlreadyInTransaction` and leaves the session — in particular the
existing writer and its buffered documents — unchanged. -/
theorem begin_already_in_transaction (s : Session) (w : Writer)
    (h : s.writer = some w) :
    Session.begin s = (some Error.alreadyInTransaction, s) ∧
    (Session.begin s).2.writer = some w := by
  refine ⟨?_, ?_⟩ <;> simp [Session.begin, h]

/-- Closed witness for C3 at the fixture session `s1` (writer `w0`). -/
theorem begin_already_in_transaction_witness :
    Session.begin s1 = (some Error.alreadyInTransaction, s1) ∧
    (Session.begin s1).2.writer = some w0 :=
  begin_already_in_transaction s1 w0 rfl

/-- Claim C4: `topResults` returns exactly the entries of the score map
whose score reaches the threshold (the least `n` with
`best * p ≤ 100 * n`, i.e. `ceil(best * p / 100)`, where `best` is the
maximum collected score and 0 for the empty map), sorted by score
descending with ties broken by doc id ascending, truncated to at most `k`
entries; the empty score map yields the empty result. -/
theorem topResults_characterisation (k p : Nat) (m : List (Nat × Nat)) :
    ∃ l : List (Nat × Nat),
      l.Perm (m.filter fun x => cutoff p (bestScore m) ≤ x.2) ∧
      List.Sorted ResultRel l ∧
      topResults k p m = l.take k ∧
      (topResults k p m).length ≤ k ∧
      (∀ n : Nat, cutoff p (bestScore m) ≤ n ↔ bestScore m * p ≤ 100 * n) ∧
      bestScore ([] : List (Nat × Nat)) = 0 ∧
      topResults k p ([] : List (Nat × Nat)) = [] := by
  refine ⟨(m.filter fun x => cutoff p (bestScore m) ≤ x.2).insertionSort ResultRel,
    ?_, ?_, ?_, ?_, ?_, ?_, ?_⟩
  · exact List.perm_insertionSort _ _
  · exact List.sorted_insertionSort _ _
  · rfl
  · simp only [topResults, List.length_take]
    omega
  · intro n
    unfold cutoff
    omega
  · rfl
  · simp [topResults]

/-- Claim C5: `rollback()` on a session with an active transaction discards
the in-memory buffer and makes no manifest change, and after the sequence
begin, insert, rollback, begin the second transaction starts with an empty
buffer while the index equals the pre-rollback (and initial) index. -/
theorem rollback_discards_buffer (s : Session) (hwr : s.writer = none)
    (id : Nat) (hs : List Nat) :
    ∃ t1 t2 t3 t4 : Session,
      Session.begin s = (none, t1) ∧
      Session.insert t1 id hs = (none, t2) ∧
      Session.rollback t2 = (none, t3) ∧
      Session.begin t3 = (none, t4) ∧
      t2.index = s.index ∧
      t3.index = s.index ∧
      t3.writer = none ∧
      t4.index = s.index ∧
      t4.writer = some { buffer := [], pendingAttrs := s.index.attributes } := by
  refine ⟨{ s with writer := some { buffer := [], pendingAttrs := s.index.attributes } },
    { s with writer := some { buffer := [{ docId := id, hashes := hs }],
                              pendingAttrs := s.index.attributes } },
    { s with writer := none },
    { s with writer := some { buffer := [], pendingAttrs := s.index.attributes } },
    ?_, ?_, ?_, ?_, rfl, rfl, rfl, rfl, rfl⟩ <;>
    simp [Session.begin, Session.insert, Session.rollback, hwr]

/-- Closed witness for C5: the begin-insert-rollback-begin round trip on
the fixture session `s0`. -/
theorem rollback_discards_buffer_witness :
    ∃ t1 t2 t3 t4 : Session,
      Session.begin s0 = (none, t1) ∧
      Session.insert t1 9 [1, 2] = (none, t2) ∧
      Session.rollback t2 = (none, t3) ∧
      Session.begin t3 = (none, t4) ∧
      t2.index = s0.index ∧
      t3.index = s0.index ∧
      t3.writer = none ∧
      t4.index = s0.index ∧
      t4.writer = some { buffer := [], pendingAttrs := s0.index.attributes } :=
  rollback_discards_buffer s0 rfl 9 [1, 2]

/-- Claim C6: the in-transaction flag is a state-machine invariant — a
successful `begin()` leaves a writer in place, a successful `commit()` or
`rollback()` leaves no writer, so immediately after a successful
`commit()`/`rollback()` a `begin()` succeeds while a `commit()` or
`rollback()` fails with `NotInTransaction`. -/
theorem transaction_state_machine (s t : Session) (ioOk ioOk2 : Bool)
    (h : Session.commit ioOk s = (none, t) ∨ Session.rollback s = (none, t)) :
    t.writer = none ∧
    (Session.begin t).1 = none ∧
    Session.commit ioOk2 t = (some Error.notInTransaction, t) ∧
    Session.rollback t = (some Error.notInTransaction, t) ∧
    (∀ u u' : Session, Session.begin u = (none, u') → u'.writer.isSome) := by
  have hw : t.writer = none := by
    rcases h with h | h
    · exact commit_ok_clears_writer ioOk s t h
    · exact rollback_ok_clears_writer s t h
  refine ⟨hw, ?_, ?_, ?_, ?_⟩
  · simp [Session.begin, hw]
  · simp [Session.commit, hw]
  · simp [Session.rollback, hw]
  · intro u u' hu
    unfold Session.begin at hu
    split at hu
    · simp at hu
    · simp at hu
      rw [← hu]
      rfl

/-- Closed witness for C6: a commit on the fixture session `s1` succeeds,
and the resulting session accepts `begin` but rejects `commit` and
`rollback`. -/
theorem transaction_state_machine_witness :
    (Session.commit true s1).2.writer = none ∧
    (Session.begin (Session.commit true s1).2).1 = none ∧
    Session.commit true (Session.commit true s1).2 =
      (some Error.notInTransaction, (Session.commit true s1).2) ∧
    Session.rollback (Session.commit true s1).2 =
      (some Error.notInTransaction, (Session.commit true s1).2) ∧
    (∀ u u' : Session, Session.begin u = (none, u') → u'.writer.isSome) :=
  transaction_state_machine s1 (Session.commit true s1).2 true true (Or.inl rfl)

/-- Claim C7: `setAttribute` on the session-local names `max_results` and
`top_score_percent` succeeds whether or not a transaction is active (it
never raises `NotInTransaction`), and it changes only the session-local
field: the index (hence the manifest attribute map) and the writer are
untouched. -/
theorem set_attribute_session_local (s : Session) (v : String) :
    Session.setAttribute s "max_results" v =
      (none, { s with maxResults := toIntQ v }) ∧
    Session.setAttribute s "top_score_percent" v =
      (none, { s with topScorePercent := toIntQ v }) ∧
    (Session.setAttribute s "max_results" v).2.index = s.index ∧
    (Session.setAttribute s "max_results" v).2.writer = s.writer ∧
    (Session.setAttribute s "top_score_percent" v).2.index = s.index ∧
    (Session.setAttribute s "top_score_percent" v).2.writer = s.writer := by
  refine ⟨?_, ?_, ?_, ?_, ?_, ?_⟩ <;> simp [Session.setAttribute]

/-- Claim C8: `getAttribute` for a name other than the two session-local
ones reads the published manifest's attribute map when no writer is
active, and the writer's pending manifest when one is. -/
theorem get_attribute_manifest (s : Session) (name : String)
    (hn1 : name ≠ "max_results") (hn2 : name ≠ "top_score_percent") :
    (s.writer = none →
      Session.getAttribute s name = lookupAttr s.index.attributes name) ∧
    (∀ w : Writer, s.writer = some w →
      Session.getAttribute s name = lookupAttr w.pendingAttrs name) := by
  constructor
  · intro hw
    simp [Session.getAttribute, hn1, hn2, hw]
  · intro w hw
    simp [Session.getAttribute, hn1, hn2, hw]

/-- Closed witness for C8 at the fixture sessions `s0` (no writer) and
`s1` (writer `w0`) with the manifest attribute `foo`. -/
theorem get_attribute_manifest_witness :
    Session.getAttribute s0 "foo" = lookupAttr s0.index.attributes "foo" ∧
    Session.getAttribute s1 "foo" = lookupAttr w0.pendingAttrs "foo" :=
  ⟨(get_attribute_manifest s0 "foo" (by decide) (by decide)).1 rfl,
   (get_attribute_manifest s1 "foo" (by decide) (by decide)).2 w0 rfl⟩

/-- Claim C9 counterexample: `setAttribute` performs no range validation —
setting `top_score_percent` to `150` (outside 0–100) on the fixture
session succeeds with no `InvalidAttribute` error and stores 150 in the
session-local field. -/
theorem set_attribute_no_range_check :
    Session.setAttribute s0 "top_score_percent" "150" =
      (none, { s0 with topScorePercent := 150 }) ∧
    (Session.setAttribute s0 "top_score_percent" "150").1 ≠
      some Error.invalidAttribute ∧
    (Session.setAttribute s0 "top_score_percent" "150").2.topScorePercent = 150 := by
  refine ⟨?_, ?_, ?_⟩ <;> decide

/-- Claim C9 amended: `setAttribute` on `top_score_percent` performs no
range validation — for every value string it succeeds and stores the
integer conversion of the value (0 when the string is not a number),
even when that integer lies outside 0–100. -/
theorem set_attribute_top_score_percent_stores (s : Session) (v : String) :
    Session.setAttribute s "top_score_percent" v =
      (none, { s with topScorePercent := toIntQ v }) := by
  simp [Session.setAttribute]

/-- Claim C10: `search` never requires a transaction: it raises no error
(in particular never `NotInTransaction`), leaves the session exactly as it
was, and its result is a function of the published index and the
session-local `max_results` and `top_score_percent` values only — two
sessions agreeing on those three produce the same result regardless of any
active writer. -/
theorem search_no_transaction (s t : Session) (hashes : List Nat)
    (hidx : s.index = t.index) (hk : s.maxResults = t.maxResults)
    (hp : s.topScorePercent = t.topScorePercent) :
    (Session.search s hashes).1 = none ∧
    (Session.search s hashes).2.1 = s ∧
    (Session.search s hashes).2.2 = (Session.search t hashes).2.2 := by
  refine ⟨rfl, rfl, ?_⟩
  simp [Session.search, hidx, hk, hp]

/-- Closed witness for C10: the fixture sessions `s1` (active writer) and
`s0` (no writer) share index and attributes, and `search` errors on
neither, changes neither, and returns the same result on both. -/
theorem search_no_transaction_witness :
    (Session.search s1 [100]).1 = none ∧
    (Session.search s1 [100]).2.1 = s1 ∧
    (Session.search s1 [100]).2.2 = (Session.search s0 [100]).2.2 :=
  search_no_transaction s1 s0 [100] rfl rfl rfl

end Acoustid
